import Mathlib

/-!
Shallow embedding of the thesis-style validator
(src/app/services/thesis_validation/validator.py and models.py).

The Python validator consumes a parsed docx document (python-docx).  We embed
the parsed-document view directly: sections carry page geometry in the integer
unit returned by int() on a python-docx Length, paragraphs carry text,
alignment, line spacing, first-line indent and runs, runs carry text and
optional font name / font size (in points, as a rational) / bold / italic.
Font sizes and line-spacing multipliers are modelled as rationals; the Python
floats involved (14, 12, 0.5, 1.15, 0.06, 1.25) are exactly representable in
the comparisons the validator performs at these values.
-/

/- The Batteries rational-number operations are irreducible by default, which
blocks evaluation of concrete documents by decide; restore semireducibility so
the development stays fully executable. -/
set_option allowUnsafeReducibility true in
attribute [semireducible] Rat.mul Rat.add Rat.sub Rat.inv Rat.ofScientific

/-- Severity from models.py: enumeration ERROR / WARNING. -/
inductive Severity where
  | ERROR
  | WARNING
deriving DecidableEq, Repr

/-- Detail values stored in a finding's details mapping (ints, strings,
rationals stand in for Python's ints, strs and floats). -/
inductive DVal where
  | str (s : String)
  | int (n : Int)
  | rat (q : Rat)
deriving DecidableEq, Repr

/-- ValidationIssue from models.py: code, severity, message, optional details. -/
structure ValidationIssue where
  code : String
  severity : Severity
  message : String
  details : Option (List (String × DVal)) := none
deriving DecidableEq, Repr

/-- ValidationReport from models.py: ok flag plus ordered list of issues. -/
structure ValidationReport where
  ok : Bool
  issues : List ValidationIssue
deriving DecidableEq, Repr

/-- Paragraph alignment constants (docx.enum.text.WD_ALIGN_PARAGRAPH). -/
inductive WD_ALIGN_PARAGRAPH where
  | LEFT
  | CENTER
  | RIGHT
  | JUSTIFY
  | DISTRIBUTE
deriving DecidableEq, Repr

/-- A paragraph's line-spacing value: either a multiplier (Python int/float)
or an absolute Length (python-docx Length, stored in EMU). -/
inductive LineSpacingVal where
  | mult (q : Rat)
  | length (emu : Int)
deriving DecidableEq, Repr

/-- A run of the parsed document: text plus optional font name, font size in
points, bold flag and italic flag (None models attributes inherited from a
style and invisible at run level). -/
structure Run where
  text : String
  font_name : Option String := none
  font_size : Option Rat := none
  bold : Option Bool := none
  italic : Option Bool := none
deriving DecidableEq, Repr

/-- A paragraph of the parsed document. -/
structure Paragraph where
  text : String
  alignment : Option WD_ALIGN_PARAGRAPH := none
  line_spacing : Option LineSpacingVal := none
  first_line_indent : Option Int := none
  runs : List Run := []
deriving DecidableEq, Repr

/-- A section of the parsed document: page geometry (integers, the unit being
whatever int() yields on the Length objects) and the texts of the header and
footer paragraphs (none models a missing header/footer object). -/
structure Section where
  page_width : Int
  page_height : Int
  top_margin : Int
  bottom_margin : Int
  left_margin : Int
  right_margin : Int
  header : Option (List String) := none
  footer : Option (List String) := none
deriving DecidableEq, Repr

/-- The parsed document view: sections plus the flat paragraph list. -/
structure Document where
  sections : List Section := []
  paragraphs : List Paragraph := []
deriving DecidableEq, Repr

/-! ### String helpers mirroring the Python string operations used. -/

/-- Python str.lower restricted to the alphabets the validator compares
(ASCII letters plus the Ukrainian/Russian Cyrillic capitals used by the
literature heading and the regular expressions). -/
def charLowerUk (c : Char) : Char :=
  if 'A' ≤ c ∧ c ≤ 'Z' then Char.ofNat (c.toNat + 32)
  else if 0x410 ≤ c.toNat ∧ c.toNat ≤ 0x42F then Char.ofNat (c.toNat + 0x20)
  else if c.toNat = 0x406 then Char.ofNat 0x456
  else if c.toNat = 0x407 then Char.ofNat 0x457
  else if c.toNat = 0x404 then Char.ofNat 0x454
  else if c.toNat = 0x490 then Char.ofNat 0x491
  else if c.toNat = 0x401 then Char.ofNat 0x451
  else c

/-- Python str.upper restricted to the same alphabets. -/
def charUpperUk (c : Char) : Char :=
  if 'a' ≤ c ∧ c ≤ 'z' then Char.ofNat (c.toNat - 32)
  else if 0x430 ≤ c.toNat ∧ c.toNat ≤ 0x44F then Char.ofNat (c.toNat - 0x20)
  else if c.toNat = 0x456 then Char.ofNat 0x406
  else if c.toNat = 0x457 then Char.ofNat 0x407
  else if c.toNat = 0x454 then Char.ofNat 0x404
  else if c.toNat = 0x491 then Char.ofNat 0x490
  else if c.toNat = 0x451 then Char.ofNat 0x401
  else c

/-- Lowercase a whole string (Python str.lower on the supported alphabets). -/
def lowerUk (s : String) : String :=
  ⟨s.data.map charLowerUk⟩

/-- Uppercase a whole string (Python str.upper on the supported alphabets). -/
def upperUk (s : String) : String :=
  ⟨s.data.map charUpperUk⟩

/-- Collapse every whitespace run to a single space: Python
re.sub applied with pattern backslash-s-plus and replacement a space. -/
def collapseWsAux : Bool → List Char → List Char
  | _, [] => []
  | prevWs, c :: rest =>
    if c.isWhitespace then
      if prevWs then collapseWsAux true rest
      else ' ' :: collapseWsAux true rest
    else c :: collapseWsAux false rest

/-- String version of the whitespace-collapsing substitution. -/
def collapseWs (s : String) : String :=
  ⟨collapseWsAux false s.data⟩

/-- Python str.strip over the character list: drop leading and trailing
whitespace.  Structurally recursive (unlike String.trim, which recurses on
byte positions), so concrete documents evaluate inside proofs. -/
def pyStripList (l : List Char) : List Char :=
  ((l.dropWhile Char.isWhitespace).reverse.dropWhile Char.isWhitespace).reverse

/-- Python str.strip on strings. -/
def pyStrip (s : String) : String :=
  ⟨pyStripList s.data⟩

/-- Python str.startswith, over the character lists. -/
def pyStartsWith (s : String) (marker : String) : Bool :=
  List.isPrefixOf marker.data s.data

/-- Python membership test of a character in a string (the in operator). -/
def pyContainsChar (s : String) (c : Char) : Bool :=
  s.data.any (fun d => d == c)

/-- Python slicing s[:n], counted in characters. -/
def pyTake (s : String) (n : Nat) : String :=
  ⟨s.data.take n⟩

/-- Python newline-join of a list of strings, as a character list. -/
def joinNlList : List String → List Char
  | [] => []
  | [s] => s.data
  | s :: rest => s.data ++ '\n' :: joinNlList rest

/-! ### Constants from validator.py. -/

def REQUIRED_FONT : String := "Times New Roman"

def REQUIRED_SIZE_PT : Rat := 14

def CAPTION_SIZE_PT : Rat := 12

def MM_TO_INCH : Rat := 1 / (254 / 10)

def TWIPS_PER_INCH : Rat := 1440

/-- Python round (banker's rounding: ties go to the even integer). -/
def pyRound (q : Rat) : Int :=
  let f := ⌊q⌋
  if q - f < 1 / 2 then f
  else if q - f > 1 / 2 then f + 1
  else if f % 2 = 0 then f else f + 1

def MARGIN_20MM_TWIPS : Int := pyRound (20 * MM_TO_INCH * TWIPS_PER_INCH)

def MARGIN_TWIPS_TOL : Nat := 40

def FONT_SIZE_TOL : Rat := 1 / 2

def INDENT_CM : Rat := 125 / 100

def LINE_SPACING_TARGET : Rat := 115 / 100

def LINE_SPACING_TOL : Rat := 6 / 100

def MIN_TEXT_CHARS : Nat := 800

def MAX_TEXT_CHARS : Nat := 6500

/-- ThesisStyleRules from validator.py with its default values. -/
structure ThesisStyleRules where
  font_name : String := REQUIRED_FONT
  font_size_pt : Rat := REQUIRED_SIZE_PT
  margin_twips : Int := MARGIN_20MM_TWIPS
  require_bold_header : Bool := true
  title_uppercase : Bool := true
  authors_italic : Bool := true
  header_centered : Bool := true
  body_justify : Bool := true
  line_spacing : Rat := LINE_SPACING_TARGET
  paragraph_indent_cm : Rat := INDENT_CM
  require_literature_block : Bool := true
deriving DecidableEq, Repr

/-! ### Page setup check (_check_page_setup). -/

/-- The margin loop body of _check_page_setup for one named side: one
MARGIN_NOT_20MM ERROR when the side deviates from the configured margin by
more than MARGIN_TWIPS_TOL. -/
def marginSideIssues (idx : Nat) (rules : ThesisStyleRules) (side_name : String)
    (value : Int) : List ValidationIssue :=
  if MARGIN_TWIPS_TOL < (value - rules.margin_twips).natAbs then
    [{ code := "MARGIN_NOT_20MM"
     , severity := Severity.ERROR
     , message := "Поля страницы должны быть 20 мм со всех сторон."
     , details := some [("section", DVal.int idx), ("side", DVal.str side_name),
         ("twips", DVal.int value), ("expected_twips", DVal.int rules.margin_twips)] }]
  else []

/-- Python has_text helper inside _section_has_header_footer_text. -/
def has_text (paragraphs : List String) : Bool :=
  paragraphs.any (fun p => pyStrip p != "")

/-- _section_has_header_footer_text from validator.py. -/
def _section_has_header_footer_text (s : Section) : Bool :=
  (match s.header with
   | some hdr => has_text hdr
   | none => false)
  || (match s.footer with
      | some ftr => has_text ftr
      | none => false)

/-- The loop body of _check_page_setup for one section (index idx). -/
def sectionPageSetupIssues (idx : Nat) (s : Section) (rules : ThesisStyleRules) :
    List ValidationIssue :=
  (if ¬ (11700 ≤ s.page_width ∧ s.page_width ≤ 12150
         ∧ 16600 ≤ s.page_height ∧ s.page_height ≤ 17050) then
    [{ code := "PAGE_NOT_A4"
     , severity := Severity.WARNING
     , message := "Формат страницы отличается от A4 (ожидается 297x210 мм)."
     , details := some [("section", DVal.int idx), ("page_width_twips", DVal.int s.page_width),
         ("page_height_twips", DVal.int s.page_height)] }]
   else [])
  ++ ([("top", s.top_margin), ("bottom", s.bottom_margin),
       ("left", s.left_margin), ("right", s.right_margin)].flatMap
        fun sv => marginSideIssues idx rules sv.1 sv.2)
  ++ (if _section_has_header_footer_text s then
        [{ code := "HEADER_FOOTER_PRESENT"
         , severity := Severity.ERROR
         , message := "Колонтитулы запрещены (header/footer должен быть пустым)."
         , details := some [("section", DVal.int idx)] }]
      else [])

/-- _check_page_setup from validator.py: enumerate sections, apply the loop
body to each, concatenate. -/
def _check_page_setup (doc : Document) (rules : ThesisStyleRules) : List ValidationIssue :=
  doc.sections.enum.flatMap fun p => sectionPageSetupIssues p.1 p.2 rules

/-! ### Header structure check (_check_header_structure). -/

/-- The paragraph filter used throughout validator.py: keep paragraphs whose
stripped text is non-empty. -/
def nonEmptyParagraphs (doc : Document) : List Paragraph :=
  doc.paragraphs.filter (fun p => pyStrip p.text != "")

/-- Membership in the character class of the authors-initials regular
expression: Latin letters, Cyrillic letters (А-Я, а-я, І, Ї, Є, Ґ and their
lowercase forms), the typographic apostrophe U+2019 and the hyphen. -/
def isInitialsWordChar (c : Char) : Bool :=
  ('A' ≤ c && c ≤ 'Z') || ('a' ≤ c && c ≤ 'z')
  || (0x410 ≤ c.toNat && c.toNat ≤ 0x42F)
  || (0x430 ≤ c.toNat && c.toNat ≤ 0x44F)
  || c.toNat == 0x406 || c.toNat == 0x407 || c.toNat == 0x404 || c.toNat == 0x490
  || c.toNat == 0x456 || c.toNat == 0x457 || c.toNat == 0x454 || c.toNat == 0x491
  || c.toNat == 0x2019 || c == '-'

/-- The uppercase-letter class of the initials regular expression. -/
def isInitialsCapChar (c : Char) : Bool :=
  ('A' ≤ c && c ≤ 'Z')
  || (0x410 ≤ c.toNat && c.toNat ≤ 0x42F)
  || c.toNat == 0x406 || c.toNat == 0x407 || c.toNat == 0x404 || c.toNat == 0x490

/-- Match the initials pattern at the start of the character list: one or
more word characters, one or more whitespace characters, an uppercase letter
followed by a dot, optional whitespace, another uppercase letter followed by
a dot.  The character classes involved are pairwise disjoint where the
pattern switches, so greedy scanning without backtracking is exact. -/
def matchInitialsAt (l : List Char) : Bool :=
  let w := l.takeWhile isInitialsWordChar
  let r1 := l.dropWhile isInitialsWordChar
  if w.isEmpty then false else
  let s1 := r1.takeWhile Char.isWhitespace
  let r2 := r1.dropWhile Char.isWhitespace
  if s1.isEmpty then false else
  match r2 with
  | c :: d :: r3 =>
    if isInitialsCapChar c && d == '.' then
      match r3.dropWhile Char.isWhitespace with
      | e :: f :: _ => isInitialsCapChar e && f == '.'
      | _ => false
    else false
  | _ => false

/-- re.search over the string: try the pattern at every start position. -/
def searchInitialsAux : List Char → Bool
  | [] => false
  | l@(_ :: rest) => matchInitialsAt l || searchInitialsAux rest

/-- The re.search call of _check_header_structure on the authors line. -/
def searchInitials (s : String) : Bool := searchInitialsAux s.data

/-- One run's contribution to bad_name in _check_paragraph_font: font name
present and different from the rule's. -/
def runFontNameMismatch (rules : ThesisStyleRules) (r : Run) : Bool :=
  match r.font_name with
  | some name => name != rules.font_name
  | none => false

/-- One run's contribution to bad_size in _check_paragraph_font: font size
present and off by more than FONT_SIZE_TOL. -/
def runFontSizeMismatch (rules : ThesisStyleRules) (r : Run) : Bool :=
  match r.font_size with
  | some size => decide (FONT_SIZE_TOL < |size - rules.font_size_pt|)
  | none => false

/-- One run's contribution to unknown_font in _check_paragraph_font: font
name or size absent at run level. -/
def runFontUnknown (r : Run) : Bool :=
  r.font_name.isNone || r.font_size.isNone

/-- _check_paragraph_font from validator.py: run-level font check shared by
the three header paragraphs. -/
def _check_paragraph_font (p : Paragraph) (rules : ThesisStyleRules)
    (must_bold : Bool) (must_italic : Bool) (w : String) : List ValidationIssue :=
  let text := pyStrip p.text
  if text = "" then [] else
  let rs := p.runs.filter (fun r => pyStrip r.text != "")
  let any_run : Bool := !rs.isEmpty
  let bad_name : Bool := rs.any (runFontNameMismatch rules)
  let bad_size : Bool := rs.any (runFontSizeMismatch rules)
  let bad_bold : Bool := rs.any fun r => must_bold && r.bold != some true
  let bad_italic : Bool := rs.any fun r => must_italic && r.italic != some true
  let unknown_font : Bool := !any_run || rs.any runFontUnknown
  (if bad_name then
    [{ code := "FONT_NAME_MISMATCH"
     , severity := Severity.ERROR
     , message := "Неверный шрифт в блоке " ++ w ++ ". Требуется " ++ rules.font_name ++ "."
     , details := some [("where", DVal.str w), ("text", DVal.str text)] }]
   else [])
  ++ (if bad_size then
    [{ code := "FONT_SIZE_MISMATCH"
     , severity := Severity.ERROR
     , message := "Неверный размер шрифта в блоке " ++ w ++ ". Требуется "
         ++ toString rules.font_size_pt ++ " pt."
     , details := some [("where", DVal.str w), ("text", DVal.str text)] }]
   else [])
  ++ (if must_bold && bad_bold then
    [{ code := "HEADER_NOT_BOLD"
     , severity := Severity.ERROR
     , message := "Блок " ++ w ++ " должен быть полужирным."
     , details := some [("where", DVal.str w), ("text", DVal.str text)] }]
   else [])
  ++ (if must_italic && bad_italic then
    [{ code := "AUTHORS_NOT_ITALIC"
     , severity := Severity.ERROR
     , message := "Список авторов должен быть курсивом."
     , details := some [("where", DVal.str w), ("text", DVal.str text)] }]
   else [])
  ++ (if unknown_font && !(bad_name || bad_size) then
    [{ code := "FONT_UNKNOWN"
     , severity := Severity.WARNING
     , message := "Не удалось полностью определить шрифт/размер для блока " ++ w
         ++ " (возможно задан стилем)."
     , details := some [("where", DVal.str w)] }]
   else [])

/-- _check_header_structure from validator.py. -/
def _check_header_structure (doc : Document) (rules : ThesisStyleRules) :
    List ValidationIssue :=
  match nonEmptyParagraphs doc with
  | title_p :: authors_p :: org_p :: _ =>
    (if rules.header_centered then
      ([("TITLE_NOT_CENTER", title_p, "назва"),
        ("AUTHORS_NOT_CENTER", authors_p, "автори"),
        ("ORG_NOT_CENTER", org_p, "організація")].flatMap fun t =>
          if t.2.1.alignment != some WD_ALIGN_PARAGRAPH.CENTER then
            [{ code := t.1
             , severity := Severity.ERROR
             , message := "Строка «" ++ t.2.2 ++ "» должна быть выровнена по центру."
             , details := some [("text", DVal.str (pyStrip t.2.1.text))] }]
          else [])
     else [])
    ++ (let title_text := pyStrip title_p.text
        if rules.title_uppercase && title_text != "" && title_text != upperUk title_text then
          [{ code := "TITLE_NOT_UPPERCASE"
           , severity := Severity.ERROR
           , message := "Название должно быть оформлено прописными буквами (UPPERCASE)."
           , details := some [("title", DVal.str title_text)] }]
        else [])
    ++ _check_paragraph_font title_p rules true false "title"
    ++ _check_paragraph_font authors_p rules true rules.authors_italic "authors"
    ++ _check_paragraph_font org_p rules true false "organization"
    ++ (if !(pyContainsChar authors_p.text ',') then
          [{ code := "AUTHORS_LIST_FORMAT"
           , severity := Severity.WARNING
           , message := "Авторы обычно перечисляются через запятую."
           , details := some [("authors_line", DVal.str (pyStrip authors_p.text))] }]
        else [])
    ++ (if !(searchInitials authors_p.text) then
          [{ code := "AUTHORS_INITIALS_PATTERN"
           , severity := Severity.WARNING
           , message := "Проверь формат Фамилия И.О. (инициалы после фамилии)."
           , details := some [("authors_line", DVal.str (pyStrip authors_p.text))] }]
        else [])
  | _ =>
    [{ code := "HEADER_TOO_SHORT"
     , severity := Severity.ERROR
     , message := "Не найдено минимум 3 строки заголовочной части: назва, автори, організація." }]

/-! ### Body paragraphs check (_check_body_paragraphs). -/

/-- The lowered literature heading comparison used in validator.py. -/
def isLitHeading (p : Paragraph) : Bool :=
  lowerUk (pyStrip p.text) == "література"

/-- The expected first-line indent in twips computed by _check_body_paragraphs:
int(round(paragraph_indent_cm in twips)). -/
def expectedIndentTwips (rules : ThesisStyleRules) : Int :=
  pyRound (rules.paragraph_indent_cm * 10 * MM_TO_INCH * TWIPS_PER_INCH)

/-- First condition of the body font loop: the run has a truthy font name
(Python truthiness: not None and not empty) different from the rule's. -/
def runNameBad (rules : ThesisStyleRules) (r : Run) : Bool :=
  match r.font_name with
  | some name => name != "" && name != rules.font_name
  | none => false

/-- Second condition of the body font loop: the run has a truthy font size
(Python truthiness: not None and not zero) off by more than FONT_SIZE_TOL. -/
def runSizeBad (rules : ThesisStyleRules) (r : Run) : Bool :=
  match r.font_size with
  | some size => size != 0 && decide (FONT_SIZE_TOL < |size - rules.font_size_pt|)
  | none => false

/-- The run-scanning loop at the end of the body-paragraph loop: skip blank
runs, emit one warning for the first run with a mismatching font name or,
failing that, a mismatching size, then stop. -/
def bodyFontScan (rules : ThesisStyleRules) (txt : String) :
    List Run → List ValidationIssue
  | [] => []
  | r :: rest =>
    if pyStrip r.text == "" then bodyFontScan rules txt rest
    else if runNameBad rules r then
      [{ code := "BODY_FONT_NAME_MISMATCH"
       , severity := Severity.WARNING
       , message := "Основной текст должен быть " ++ rules.font_name ++ "."
       , details := some [("paragraph", DVal.str (pyTake txt 80)),
           ("font", DVal.str (r.font_name.getD ""))] }]
    else if runSizeBad rules r then
      [{ code := "BODY_FONT_SIZE_MISMATCH"
       , severity := Severity.WARNING
       , message := "Основной текст должен быть " ++ toString rules.font_size_pt ++ " pt."
       , details := some [("paragraph", DVal.str (pyTake txt 80)),
           ("size_pt", DVal.rat (r.font_size.getD 0))] }]
    else bodyFontScan rules txt rest

/-- The justification block of the body-paragraph loop. -/
def justifyIssues (rules : ThesisStyleRules) (p : Paragraph) (txt : String) :
    List ValidationIssue :=
  if rules.body_justify
      && !(p.alignment == none || p.alignment == some WD_ALIGN_PARAGRAPH.JUSTIFY) then
    [{ code := "BODY_NOT_JUSTIFIED"
     , severity := Severity.WARNING
     , message := "Основной текст должен быть выровнен по ширине."
     , details := some [("paragraph", DVal.str (pyTake txt 80))] }]
  else []

/-- The line-spacing block of the body-paragraph loop. -/
def lineSpacingIssues (rules : ThesisStyleRules) :
    Option LineSpacingVal → List ValidationIssue
  | none => []
  | some (LineSpacingVal.mult ls) =>
    if decide (LINE_SPACING_TOL < |ls - rules.line_spacing|) then
      [{ code := "LINE_SPACING_MISMATCH"
       , severity := Severity.WARNING
       , message := "Ожидается межстрочный интервал 1.15."
       , details := some [("got", DVal.rat ls), ("expected", DVal.rat rules.line_spacing)] }]
    else []
  | some (LineSpacingVal.length _) =>
    [{ code := "LINE_SPACING_ABSOLUTE"
     , severity := Severity.WARNING
     , message := "Межстрочный интервал задан абсолютным значением, ожидается множитель 1.15." }]

/-- The first-line-indent block of the body-paragraph loop: tolerance 80
twips around the expected indent, as hard-coded in the source. -/
def indentIssues (rules : ThesisStyleRules) : Option Int → List ValidationIssue
  | none => []
  | some ind =>
    if 80 < (ind - expectedIndentTwips rules).natAbs then
      [{ code := "INDENT_MISMATCH"
       , severity := Severity.WARNING
       , message := "Абзацный отступ должен быть около 1.25 см."
       , details := some [("got_twips", DVal.int ind),
           ("expected_twips", DVal.int (expectedIndentTwips rules))] }]
    else []

/-- The loop body of _check_body_paragraphs for one sampled paragraph. -/
def bodyParagraphIssues (rules : ThesisStyleRules) (p : Paragraph) :
    List ValidationIssue :=
  let txt := pyStrip p.text
  if txt = "" then [] else
  justifyIssues rules p txt
  ++ lineSpacingIssues rules p.line_spacing
  ++ indentIssues rules p.first_line_indent
  ++ bodyFontScan rules txt p.runs

/-- _check_body_paragraphs from validator.py: body is the non-empty
paragraphs after the first three, truncated before the literature heading,
sampled to the first 30. -/
def _check_body_paragraphs (doc : Document) (rules : ThesisStyleRules) :
    List ValidationIssue :=
  let paragraphs := nonEmptyParagraphs doc
  if paragraphs.length < 4 then [] else
  let body := paragraphs.drop 3
  let body2 :=
    match List.findIdx? isLitHeading body with
    | some i => body.take i
    | none => body
  let sample := body2.take 30
  sample.flatMap (bodyParagraphIssues rules)

/-! ### Literature check (_check_literature). -/

/-- re.match of the literature-item pattern (optional whitespace, digits, a
dot) against an already-stripped string: at least one leading digit followed
by a dot.  Digits are modelled as the ASCII digits. -/
def startsWithNumDot (s : String) : Bool :=
  let digits := s.data.takeWhile Char.isDigit
  match s.data.dropWhile Char.isDigit with
  | c :: _ => !digits.isEmpty && c == '.'
  | [] => false

/-- _check_literature from validator.py.  The Python position threshold
int(len(paragraphs) * 0.6) is modelled as len * 6 / 10 with natural-number
division; for list lengths in range the float product never crosses an
integer boundary, so the two agree. -/
def _check_literature (doc : Document) (rules : ThesisStyleRules) :
    List ValidationIssue :=
  let paragraphs := nonEmptyParagraphs doc
  if paragraphs.isEmpty then [] else
  match List.findIdx? isLitHeading paragraphs with
  | none =>
    if rules.require_literature_block then
      [{ code := "LITERATURE_MISSING"
       , severity := Severity.ERROR
       , message := "Отсутствует блок «Література» в конце документа." }]
    else []
  | some lit_pos =>
    (if lit_pos < paragraphs.length * 6 / 10 then
      [{ code := "LITERATURE_NOT_AT_END"
       , severity := Severity.WARNING
       , message := "Блок «Література» должен располагаться ближе к концу документа."
       , details := some [("position", DVal.int lit_pos),
           ("total_paragraphs", DVal.int paragraphs.length)] }]
     else [])
    ++ (let after := (paragraphs.drop (lit_pos + 1)).take 5
        if after.any (fun p => startsWithNumDot (pyStrip p.text)) then []
        else
          [{ code := "LITERATURE_ITEMS_FORMAT"
           , severity := Severity.WARNING
           , message := "Проверь оформление списка литературы: пункты обычно начинаются с «1.» и далее." }])

/-! ### Captions check (_check_captions). -/

/-- Match one caption marker:  the marker word, optional whitespace, then at
least one digit (re.match anchors at the start of the stripped text; digits
are modelled as the ASCII digits). -/
def matchMarkerNum (marker : String) (txt : String) : Bool :=
  pyStartsWith txt marker &&
    (match (txt.data.drop marker.data.length).dropWhile Char.isWhitespace with
     | c :: _ => c.isDigit
     | [] => false)

/-- The caption-pattern test of _check_captions (figure or table marker). -/
def isCaptionText (txt : String) : Bool :=
  matchMarkerNum "Рис." txt || matchMarkerNum "Таблиця" txt

/-- The caption run condition: truthy font size off from CAPTION_SIZE_PT by
more than 0.5 pt. -/
def runCaptionSizeBad (r : Run) : Bool :=
  match r.font_size with
  | some size => size != 0 && decide (1 / 2 < |size - CAPTION_SIZE_PT|)
  | none => false

/-- The run loop of _check_captions: emit one warning for the first non-blank
run whose size is off, then stop. -/
def captionRunScan (txt : String) : List Run → List ValidationIssue
  | [] => []
  | r :: rest =>
    if pyStrip r.text == "" then captionRunScan txt rest
    else if runCaptionSizeBad r then
      [{ code := "CAPTION_SIZE_MISMATCH"
       , severity := Severity.WARNING
       , message := "Подписи к рисункам/таблицам желательно оформлять 12 pt."
       , details := some [("caption", DVal.str (pyTake txt 80)),
           ("size_pt", DVal.rat (r.font_size.getD 0))] }]
    else captionRunScan txt rest

/-- The loop body of _check_captions for one paragraph. -/
def paragraphCaptionIssues (p : Paragraph) : List ValidationIssue :=
  let txt := pyStrip p.text
  if txt == "" then []
  else if isCaptionText txt then captionRunScan txt p.runs
  else []

/-- _check_captions from validator.py: scan every paragraph of the document. -/
def _check_captions (doc : Document) : List ValidationIssue :=
  doc.paragraphs.flatMap paragraphCaptionIssues

/-! ### Length heuristic (_check_length_heuristic). -/

/-- The collapsed character count of _check_length_heuristic: join all
paragraph texts with newlines, strip, collapse whitespace runs, count. -/
def _length_chars (doc : Document) : Nat :=
  (collapseWsAux false (pyStripList (joinNlList (doc.paragraphs.map Paragraph.text)))).length

/-- _check_length_heuristic from validator.py. -/
def _check_length_heuristic (doc : Document) : List ValidationIssue :=
  let chars := _length_chars doc
  (if chars < MIN_TEXT_CHARS then
    [{ code := "LENGTH_TOO_SHORT"
     , severity := Severity.WARNING
     , message := "Документ выглядит слишком коротким для 1 полной страницы (эвристическая оценка)."
     , details := some [("chars", DVal.int chars), ("min_expected", DVal.int MIN_TEXT_CHARS)] }]
   else [])
  ++ (if MAX_TEXT_CHARS < chars then
    [{ code := "LENGTH_TOO_LONG"
     , severity := Severity.WARNING
     , message := "Документ выглядит слишком длинным для 2 страниц (эвристическая оценка)."
     , details := some [("chars", DVal.int chars), ("max_expected", DVal.int MAX_TEXT_CHARS)] }]
   else [])

/-! ### The validation engine (validate_thesis_docx). -/

/-- validate_thesis_docx from validator.py, over the already-parsed document
view: run the six checks in order, concatenate the findings, and derive ok
as the absence of ERROR findings.  A missing rules argument selects the
default ThesisStyleRules, as the Python default parameter does. -/
def validate_thesis_docx (doc : Document)
    (rulesArg : Option ThesisStyleRules := none) : ValidationReport :=
  let rules := rulesArg.getD {}
  let issues :=
    _check_page_setup doc rules
    ++ _check_header_structure doc rules
    ++ _check_body_paragraphs doc rules
    ++ _check_literature doc rules
    ++ _check_captions doc
    ++ _check_length_heuristic doc
  { ok := !(issues.any fun i => i.severity == Severity.ERROR), issues := issues }

/-! ### Counting helpers and concrete example inputs used by the theorems. -/

/-- Number of findings in a list carrying a given code. -/
def countCode (l : List ValidationIssue) (c : String) : Nat :=
  (l.filter (fun i => i.code == c)).length

/-- Whether some finding in a list carries a given code. -/
def hasCode (l : List ValidationIssue) (c : String) : Bool :=
  l.any (fun i => i.code == c)

/-- The empty parsed document. -/
def docEmptyEx : Document := {}

/-- A document with exactly two non-empty paragraphs. -/
def docTwoParsEx : Document :=
  { paragraphs := [{ text := "ЗАГОЛОВОК" }, { text := "Автори І. П." }] }

/-- A section with all margins at the 20 mm default except the left one. -/
def sectBadLeftEx : Section :=
  { page_width := 11906, page_height := 16838, top_margin := 1134,
    bottom_margin := 1134, left_margin := 1300, right_margin := 1134 }

/-- A document with three non-empty paragraphs and no literature heading. -/
def docNoLitEx : Document :=
  { paragraphs := [{ text := "ЗАГОЛОВОК" }, { text := "Автори І. П." },
      { text := "Організація" }] }

/-- A body paragraph whose first-line indent is far from 1.25 cm. -/
def pIndentBigEx : Paragraph :=
  { text := "Абзац тіла", first_line_indent := some 850 }

/-- A document whose single body paragraph has a first-line indent of 766
twips: 57 twips (about 1.005 mm) away from the expected 709 twips. -/
def docIndent766Ex : Document :=
  { paragraphs := [{ text := "ЗАГОЛОВОК" }, { text := "Автори" },
      { text := "Орг" }, { text := "Тіло тексту", first_line_indent := some 766 }] }

/-- A document whose only paragraph starts with the Latin marker Fig. and
carries a 10 pt run. -/
def docFigEx : Document :=
  { paragraphs :=
      [{ text := "Fig. 1 example"
       , runs := [{ text := "Fig. 1 example", font_size := some 10 }] }] }

/-- A paragraph starting with the Cyrillic figure marker and carrying a 10 pt
run. -/
def pRysEx : Paragraph :=
  { text := "Рис. 1 пример",
    runs := [{ text := "Рис. 1 пример", font_size := some 10 }] }

/-- A paragraph whose single run has the required font name and size but
leaves both the bold and the italic flag unset. -/
def pBoldNoneEx : Paragraph :=
  { text := "Петренко І. П."
  , runs :=
      [{ text := "Петренко І. П.", font_name := some "Times New Roman"
       , font_size := some 14, bold := none, italic := none }] }

/-- A document whose single paragraph consists of 500 letters, giving a
collapsed character count of 500. -/
def docShort500Ex : Document :=
  { paragraphs := [{ text := String.mk (List.replicate 500 'a') }] }

/-! ### Generic counting lemmas. -/

theorem countCode_append (a b : List ValidationIssue) (c : String) :
    countCode (a ++ b) c = countCode a c + countCode b c := by
  simp [countCode, List.filter_append]

theorem hasCode_append (a b : List ValidationIssue) (c : String) :
    hasCode (a ++ b) c = (hasCode a c || hasCode b c) := by
  simp [hasCode]

theorem countCode_eq_zero (l : List ValidationIssue) (c : String)
    (h : ∀ i ∈ l, i.code ≠ c) : countCode l c = 0 := by
  simp only [countCode, List.length_eq_zero, List.filter_eq_nil_iff]
  intro i hi
  simpa using h i hi

theorem not_any_err_eq_all_ne (l : List ValidationIssue) :
    (!(l.any fun i => i.severity == Severity.ERROR))
      = l.all fun i => i.severity != Severity.ERROR := by
  induction l with
  | nil => rfl
  | cons a l ih =>
    simp only [List.any_cons, List.all_cons, Bool.not_or]
    rw [← ih]
    rfl

/-- C1: for every document and every RuleSet, the Report returned by
validate_thesis_docx satisfies ok = true if and only if no finding in its
issues list has severity ERROR; ok is computed from the issues list, never
set independently. -/
theorem C1_ok_derived_from_issues (doc : Document) (rules : ThesisStyleRules) :
    (validate_thesis_docx doc (some rules)).ok
      = (validate_thesis_docx doc (some rules)).issues.all
          (fun i => i.severity != Severity.ERROR) := by
  simp only [validate_thesis_docx]
  exact not_any_err_eq_all_ne _

/-- C2: validating the same parsed document with the same RuleSet twice
yields identical Reports: the same ok value and the same ordered issue
list.  The validator is a pure function of the parsed document and the
rules, with no hidden state between runs. -/
theorem C2_deterministic (doc : Document) (rules : ThesisStyleRules)
    (r1 r2 : ValidationReport)
    (h1 : r1 = validate_thesis_docx doc (some rules))
    (h2 : r2 = validate_thesis_docx doc (some rules)) :
    r1.ok = r2.ok ∧ r1.issues = r2.issues := by
  subst h1; subst h2; exact ⟨rfl, rfl⟩

/-- Witness for C2 at a concrete document. -/
theorem C2_deterministic_witness :
    (validate_thesis_docx docEmptyEx (some {})).ok
        = (validate_thesis_docx docEmptyEx (some {})).ok
      ∧ (validate_thesis_docx docEmptyEx (some {})).issues
        = (validate_thesis_docx docEmptyEx (some {})).issues :=
  C2_deterministic docEmptyEx {} _ _ rfl rfl

/-! ### Lemmas about the page-setup check. -/

theorem mem_marginSideIssues_code {idx : Nat} {rules : ThesisStyleRules}
    {side : String} {v : Int} {i : ValidationIssue}
    (h : i ∈ marginSideIssues idx rules side v) : i.code = "MARGIN_NOT_20MM" := by
  unfold marginSideIssues at h
  split at h <;> simp_all

theorem mem_marginSideIssues_sev {idx : Nat} {rules : ThesisStyleRules}
    {side : String} {v : Int} {i : ValidationIssue}
    (h : i ∈ marginSideIssues idx rules side v) : i.severity = Severity.ERROR := by
  unfold marginSideIssues at h
  split at h <;> simp_all

theorem mem_sectionPageSetupIssues_code {idx : Nat} {s : Section}
    {rules : ThesisStyleRules} {i : ValidationIssue}
    (h : i ∈ sectionPageSetupIssues idx s rules) :
    i.code = "PAGE_NOT_A4" ∨ i.code = "MARGIN_NOT_20MM"
      ∨ i.code = "HEADER_FOOTER_PRESENT" := by
  unfold sectionPageSetupIssues at h
  simp only [List.mem_append] at h
  rcases h with (h | h) | h
  · split at h <;> simp_all
  · simp only [List.mem_flatMap] at h
    obtain ⟨sv, -, hm⟩ := h
    exact Or.inr (Or.inl (mem_marginSideIssues_code hm))
  · split at h <;> simp_all

theorem mem_check_page_setup_code {doc : Document} {rules : ThesisStyleRules}
    {i : ValidationIssue} (h : i ∈ _check_page_setup doc rules) :
    i.code = "PAGE_NOT_A4" ∨ i.code = "MARGIN_NOT_20MM"
      ∨ i.code = "HEADER_FOOTER_PRESENT" := by
  unfold _check_page_setup at h
  simp only [List.mem_flatMap] at h
  obtain ⟨pr, -, hm⟩ := h
  exact mem_sectionPageSetupIssues_code hm

/-- C3: for a section whose four margins are each within the tolerance of the
configured margin, the page-setup check emits zero MARGIN_NOT_20MM findings;
one finding is emitted per offending side, always with severity ERROR; and
when only the left margin is off, the single finding carries side left. -/
theorem C3_margin_findings (idx : Nat) (s : Section) (rules : ThesisStyleRules) :
    countCode (sectionPageSetupIssues idx s rules) "MARGIN_NOT_20MM"
      = ((if MARGIN_TWIPS_TOL < (s.top_margin - rules.margin_twips).natAbs then 1 else 0)
        + (if MARGIN_TWIPS_TOL < (s.bottom_margin - rules.margin_twips).natAbs then 1 else 0)
        + (if MARGIN_TWIPS_TOL < (s.left_margin - rules.margin_twips).natAbs then 1 else 0)
        + (if MARGIN_TWIPS_TOL < (s.right_margin - rules.margin_twips).natAbs then 1 else 0))
    ∧ (∀ i ∈ sectionPageSetupIssues idx s rules,
        i.code = "MARGIN_NOT_20MM" → i.severity = Severity.ERROR)
    ∧ ((s.top_margin - rules.margin_twips).natAbs ≤ MARGIN_TWIPS_TOL →
       (s.bottom_margin - rules.margin_twips).natAbs ≤ MARGIN_TWIPS_TOL →
       (s.right_margin - rules.margin_twips).natAbs ≤ MARGIN_TWIPS_TOL →
       MARGIN_TWIPS_TOL < (s.left_margin - rules.margin_twips).natAbs →
       (sectionPageSetupIssues idx s rules).filter (fun i => i.code == "MARGIN_NOT_20MM")
         = [{ code := "MARGIN_NOT_20MM"
            , severity := Severity.ERROR
            , message := "Поля страницы должны быть 20 мм со всех сторон."
            , details := some [("section", DVal.int idx), ("side", DVal.str "left"),
                ("twips", DVal.int s.left_margin),
                ("expected_twips", DVal.int rules.margin_twips)] }]) := by
  refine ⟨?_, ?_, ?_⟩
  · simp only [sectionPageSetupIssues, countCode, marginSideIssues, List.flatMap_cons,
      List.flatMap_nil, List.append_nil, List.filter_append, List.length_append]
    split_ifs <;> simp
  · intro i hi hcode
    unfold sectionPageSetupIssues at hi
    simp only [List.mem_append] at hi
    rcases hi with (hi | hi) | hi
    · split at hi <;> simp_all
    · simp only [List.mem_flatMap] at hi
      obtain ⟨sv, -, hm⟩ := hi
      exact mem_marginSideIssues_sev hm
    · split at hi <;> simp_all
  · intro h1 h2 h3 h4
    unfold sectionPageSetupIssues marginSideIssues
    simp only [List.flatMap_cons, List.flatMap_nil, List.append_nil, List.filter_append]
    rw [if_neg (Nat.not_lt.mpr h1), if_neg (Nat.not_lt.mpr h2), if_pos h4,
      if_neg (Nat.not_lt.mpr h3)]
    split_ifs <;> simp

/-- Witness for C3 at a concrete section: only the left margin off. -/
theorem C3_margin_findings_witness :
    (sectionPageSetupIssues 0 sectBadLeftEx {}).filter
        (fun i => i.code == "MARGIN_NOT_20MM")
      = [{ code := "MARGIN_NOT_20MM"
         , severity := Severity.ERROR
         , message := "Поля страницы должны быть 20 мм со всех сторон."
         , details := some [("section", DVal.int 0), ("side", DVal.str "left"),
             ("twips", DVal.int sectBadLeftEx.left_margin),
             ("expected_twips", DVal.int ({} : ThesisStyleRules).margin_twips)] }] :=
  (C3_margin_findings 0 sectBadLeftEx {}).2.2 (by decide) (by decide) (by decide) (by decide)

theorem sectionPageSetupIssues_hf_count (idx : Nat) (s : Section)
    (rules : ThesisStyleRules) :
    countCode (sectionPageSetupIssues idx s rules) "HEADER_FOOTER_PRESENT"
      = if _section_has_header_footer_text s then 1 else 0 := by
  simp only [sectionPageSetupIssues, countCode, marginSideIssues, List.flatMap_cons,
    List.flatMap_nil, List.append_nil, List.filter_append, List.length_append]
  split_ifs <;> simp

theorem pageSetup_hf_count_enumFrom (rules : ThesisStyleRules) (l : List Section)
    (n : Nat) :
    countCode ((List.enumFrom n l).flatMap fun p => sectionPageSetupIssues p.1 p.2 rules)
        "HEADER_FOOTER_PRESENT"
      = l.countP (fun s => _section_has_header_footer_text s) := by
  induction l generalizing n with
  | nil => rfl
  | cons s rest ih =>
    simp only [List.enumFrom, List.flatMap_cons]
    rw [countCode_append, ih, sectionPageSetupIssues_hf_count, List.countP_cons]
    split_ifs <;> omega

/-- C10: the page-setup check emits at most one HEADER_FOOTER_PRESENT finding
per section, even when both the header and the footer contain non-whitespace
text: header and footer presence are collapsed into the single per-section
boolean _section_has_header_footer_text before a finding is created, and the
whole check emits exactly one finding per section with that boolean set. -/
theorem C10_header_footer_single_finding (doc : Document) (rules : ThesisStyleRules) :
    countCode (_check_page_setup doc rules) "HEADER_FOOTER_PRESENT"
      = doc.sections.countP (fun s => _section_has_header_footer_text s)
    ∧ (∀ idx s, countCode (sectionPageSetupIssues idx s rules) "HEADER_FOOTER_PRESENT"
        = if _section_has_header_footer_text s then 1 else 0)
    ∧ (∀ idx s, countCode (sectionPageSetupIssues idx s rules) "HEADER_FOOTER_PRESENT" ≤ 1) := by
  refine ⟨?_, ?_, ?_⟩
  · exact pageSetup_hf_count_enumFrom rules doc.sections 0
  · intro idx s
    exact sectionPageSetupIssues_hf_count idx s rules
  · intro idx s
    rw [sectionPageSetupIssues_hf_count]
    split <;> omega

/-! ### Code-emission lemmas for the other checks. -/

theorem mem_check_paragraph_font_code {p : Paragraph} {rules : ThesisStyleRules}
    {mb mi : Bool} {w : String} {i : ValidationIssue}
    (h : i ∈ _check_paragraph_font p rules mb mi w) :
    i.code = "FONT_NAME_MISMATCH" ∨ i.code = "FONT_SIZE_MISMATCH"
      ∨ i.code = "HEADER_NOT_BOLD" ∨ i.code = "AUTHORS_NOT_ITALIC"
      ∨ i.code = "FONT_UNKNOWN" := by
  simp only [_check_paragraph_font] at h
  split at h
  · simp_all
  · simp only [List.mem_append] at h
    rcases h with (((h | h) | h) | h) | h <;> (split at h <;> simp_all)

theorem mem_check_header_structure_code {doc : Document} {rules : ThesisStyleRules}
    {i : ValidationIssue} (h : i ∈ _check_header_structure doc rules) :
    i.code = "HEADER_TOO_SHORT" ∨ i.code = "TITLE_NOT_CENTER"
      ∨ i.code = "AUTHORS_NOT_CENTER" ∨ i.code = "ORG_NOT_CENTER"
      ∨ i.code = "TITLE_NOT_UPPERCASE" ∨ i.code = "FONT_NAME_MISMATCH"
      ∨ i.code = "FONT_SIZE_MISMATCH" ∨ i.code = "HEADER_NOT_BOLD"
      ∨ i.code = "AUTHORS_NOT_ITALIC" ∨ i.code = "FONT_UNKNOWN"
      ∨ i.code = "AUTHORS_LIST_FORMAT" ∨ i.code = "AUTHORS_INITIALS_PATTERN" := by
  unfold _check_header_structure at h
  split at h
  · simp only [List.mem_append] at h
    rcases h with ((((((h | h) | h) | h) | h) | h) | h)
    · split at h
      · simp only [List.mem_flatMap] at h
        obtain ⟨t, ht, hm⟩ := h
        simp only [List.mem_cons, List.mem_singleton, List.not_mem_nil, or_false] at ht
        rcases ht with rfl | rfl | rfl <;> (split at hm <;> simp_all)
      · simp_all
    · split at h <;> simp_all
    · rcases mem_check_paragraph_font_code h with h' | h' | h' | h' | h' <;> simp [h']
    · rcases mem_check_paragraph_font_code h with h' | h' | h' | h' | h' <;> simp [h']
    · rcases mem_check_paragraph_font_code h with h' | h' | h' | h' | h' <;> simp [h']
    · split at h <;> simp_all
    · split at h <;> simp_all
  · simp_all

theorem mem_bodyFontScan_code {rules : ThesisStyleRules} {txt : String}
    {l : List Run} {i : ValidationIssue} (h : i ∈ bodyFontScan rules txt l) :
    i.code = "BODY_FONT_NAME_MISMATCH" ∨ i.code = "BODY_FONT_SIZE_MISMATCH" := by
  induction l with
  | nil => simp [bodyFontScan] at h
  | cons r rest ih =>
    simp only [bodyFontScan] at h
    split at h
    · exact ih h
    · split at h
      · simp_all
      · split at h
        · simp_all
        · exact ih h

theorem mem_bodyParagraphIssues_code {rules : ThesisStyleRules} {p : Paragraph}
    {i : ValidationIssue} (h : i ∈ bodyParagraphIssues rules p) :
    i.code = "BODY_NOT_JUSTIFIED" ∨ i.code = "LINE_SPACING_MISMATCH"
      ∨ i.code = "LINE_SPACING_ABSOLUTE" ∨ i.code = "INDENT_MISMATCH"
      ∨ i.code = "BODY_FONT_NAME_MISMATCH" ∨ i.code = "BODY_FONT_SIZE_MISMATCH" := by
  simp only [bodyParagraphIssues] at h
  split at h
  · simp_all
  · simp only [List.mem_append] at h
    rcases h with ((h | h) | h) | h
    · simp only [justifyIssues] at h
      split at h <;> simp_all
    · simp only [lineSpacingIssues] at h
      split at h
      · simp_all
      · split at h <;> simp_all
      · simp_all
    · simp only [indentIssues] at h
      split at h
      · simp_all
      · split at h <;> simp_all
    · rcases mem_bodyFontScan_code h with h' | h' <;> simp [h']

theorem mem_check_body_paragraphs_code {doc : Document} {rules : ThesisStyleRules}
    {i : ValidationIssue} (h : i ∈ _check_body_paragraphs doc rules) :
    i.code = "BODY_NOT_JUSTIFIED" ∨ i.code = "LINE_SPACING_MISMATCH"
      ∨ i.code = "LINE_SPACING_ABSOLUTE" ∨ i.code = "INDENT_MISMATCH"
      ∨ i.code = "BODY_FONT_NAME_MISMATCH" ∨ i.code = "BODY_FONT_SIZE_MISMATCH" := by
  simp only [_check_body_paragraphs] at h
  split at h
  · simp_all
  · simp only [List.mem_flatMap] at h
    obtain ⟨p, -, hm⟩ := h
    exact mem_bodyParagraphIssues_code hm

theorem mem_check_literature_code {doc : Document} {rules : ThesisStyleRules}
    {i : ValidationIssue} (h : i ∈ _check_literature doc rules) :
    i.code = "LITERATURE_MISSING" ∨ i.code = "LITERATURE_NOT_AT_END"
      ∨ i.code = "LITERATURE_ITEMS_FORMAT" := by
  simp only [_check_literature] at h
  split at h
  · simp_all
  · split at h
    · split at h <;> simp_all
    · simp only [List.mem_append] at h
      rcases h with h | h
      · split at h <;> simp_all
      · split at h <;> simp_all

theorem mem_captionRunScan_code {txt : String} {l : List Run} {i : ValidationIssue}
    (h : i ∈ captionRunScan txt l) : i.code = "CAPTION_SIZE_MISMATCH" := by
  induction l with
  | nil => simp [captionRunScan] at h
  | cons r rest ih =>
    simp only [captionRunScan] at h
    split at h
    · exact ih h
    · split at h
      · simp_all
      · exact ih h

theorem mem_check_captions_code {doc : Document} {i : ValidationIssue}
    (h : i ∈ _check_captions doc) : i.code = "CAPTION_SIZE_MISMATCH" := by
  simp only [_check_captions, List.mem_flatMap] at h
  obtain ⟨p, -, hm⟩ := h
  simp only [paragraphCaptionIssues] at hm
  split at hm
  · simp_all
  · split at hm
    · exact mem_captionRunScan_code hm
    · simp_all

theorem mem_check_length_code {doc : Document} {i : ValidationIssue}
    (h : i ∈ _check_length_heuristic doc) :
    i.code = "LENGTH_TOO_SHORT" ∨ i.code = "LENGTH_TOO_LONG" := by
  simp only [_check_length_heuristic, List.mem_append] at h
  rcases h with h | h <;> (split at h <;> simp_all)

theorem check_header_structure_short (doc : Document) (rules : ThesisStyleRules)
    (h : (nonEmptyParagraphs doc).length < 3) :
    _check_header_structure doc rules
      = [{ code := "HEADER_TOO_SHORT"
         , severity := Severity.ERROR
         , message := "Не найдено минимум 3 строки заголовочной части: назва, автори, організація." }] := by
  unfold _check_header_structure
  split
  · rename_i title_p authors_p org_p tail heq
    rw [heq] at h
    simp only [List.length_cons] at h
    omega
  · rfl

/-- C4: a document with fewer than three non-empty paragraphs yields exactly
one finding from the header-structure check, code HEADER_TOO_SHORT, severity
ERROR, and the check short-circuits, so no other header-related finding
(centering, uppercase, header font, bold, italic, authors list, authors
initials) appears anywhere in the report. -/
theorem C4_header_too_short (doc : Document) (rules : ThesisStyleRules)
    (h : (nonEmptyParagraphs doc).length < 3) :
    _check_header_structure doc rules
      = [{ code := "HEADER_TOO_SHORT"
         , severity := Severity.ERROR
         , message := "Не найдено минимум 3 строки заголовочной части: назва, автори, організація." }]
    ∧ countCode (validate_thesis_docx doc (some rules)).issues "HEADER_TOO_SHORT" = 1
    ∧ (∀ i ∈ (validate_thesis_docx doc (some rules)).issues,
        ¬(i.code = "TITLE_NOT_CENTER" ∨ i.code = "AUTHORS_NOT_CENTER"
          ∨ i.code = "ORG_NOT_CENTER" ∨ i.code = "TITLE_NOT_UPPERCASE"
          ∨ i.code = "FONT_NAME_MISMATCH" ∨ i.code = "FONT_SIZE_MISMATCH"
          ∨ i.code = "HEADER_NOT_BOLD" ∨ i.code = "AUTHORS_NOT_ITALIC"
          ∨ i.code = "FONT_UNKNOWN" ∨ i.code = "AUTHORS_LIST_FORMAT"
          ∨ i.code = "AUTHORS_INITIALS_PATTERN")) := by
  have hhdr := check_header_structure_short doc rules h
  have hv : (validate_thesis_docx doc (some rules)).issues
      = _check_page_setup doc rules ++ _check_header_structure doc rules
        ++ _check_body_paragraphs doc rules ++ _check_literature doc rules
        ++ _check_captions doc ++ _check_length_heuristic doc := rfl
  refine ⟨hhdr, ?_, ?_⟩
  · rw [hv, countCode_append, countCode_append, countCode_append, countCode_append,
      countCode_append, hhdr]
    have h1 : countCode (_check_page_setup doc rules) "HEADER_TOO_SHORT" = 0 :=
      countCode_eq_zero _ _ fun i hi => by
        rcases mem_check_page_setup_code hi with h' | h' | h' <;> simp [h']
    have h3 : countCode (_check_body_paragraphs doc rules) "HEADER_TOO_SHORT" = 0 :=
      countCode_eq_zero _ _ fun i hi => by
        rcases mem_check_body_paragraphs_code hi with h' | h' | h' | h' | h' | h' <;> simp [h']
    have h4 : countCode (_check_literature doc rules) "HEADER_TOO_SHORT" = 0 :=
      countCode_eq_zero _ _ fun i hi => by
        rcases mem_check_literature_code hi with h' | h' | h' <;> simp [h']
    have h5 : countCode (_check_captions doc) "HEADER_TOO_SHORT" = 0 :=
      countCode_eq_zero _ _ fun i hi => by simp [mem_check_captions_code hi]
    have h6 : countCode (_check_length_heuristic doc) "HEADER_TOO_SHORT" = 0 :=
      countCode_eq_zero _ _ fun i hi => by
        rcases mem_check_length_code hi with h' | h' <;> simp [h']
    rw [h1, h3, h4, h5, h6]
    simp [countCode]
  · intro i hi hbad
    rw [hv] at hi
    simp only [List.mem_append] at hi
    rcases hi with ((((hi | hi) | hi) | hi) | hi) | hi
    · rcases mem_check_page_setup_code hi with h' | h' | h' <;> simp [h'] at hbad
    · rw [hhdr] at hi
      simp only [List.mem_singleton] at hi
      rw [hi] at hbad
      simp at hbad
    · rcases mem_check_body_paragraphs_code hi with h' | h' | h' | h' | h' | h' <;>
        simp [h'] at hbad
    · rcases mem_check_literature_code hi with h' | h' | h' <;> simp [h'] at hbad
    · simp [mem_check_captions_code hi] at hbad
    · rcases mem_check_length_code hi with h' | h' <;> simp [h'] at hbad

/-- Witness for C4 at a concrete document with two non-empty paragraphs. -/
theorem C4_header_too_short_witness :
    _check_header_structure docTwoParsEx {}
      = [{ code := "HEADER_TOO_SHORT"
         , severity := Severity.ERROR
         , message := "Не найдено минимум 3 строки заголовочной части: назва, автори, організація." }] :=
  (C4_header_too_short docTwoParsEx {} (by decide)).1

theorem findIdx?_eq_none_of {α : Type} (p : α → Bool) (l : List α) (n : Nat)
    (h : ∀ x ∈ l, p x = false) : List.findIdx? p l n = none := by
  induction l generalizing n with
  | nil => rfl
  | cons a rest ih =>
    have ha := h a (by simp)
    simp only [List.findIdx?, ha, Bool.false_eq_true, if_false]
    exact ih (n + 1) fun x hx => h x (by simp [hx])

/-- C5 counterexample: the claim quantifies over every document with no
literature-heading paragraph, but a document with no non-empty paragraph at
all (here: the empty document) short-circuits the literature check before
the require_literature_block branch, so the report contains zero
LITERATURE_MISSING findings instead of exactly one. -/
theorem C5_counterexample :
    ({} : ThesisStyleRules).require_literature_block = true
    ∧ (∀ p ∈ docEmptyEx.paragraphs, isLitHeading p = false)
    ∧ countCode (validate_thesis_docx docEmptyEx (some {})).issues "LITERATURE_MISSING" = 0
    ∧ _check_literature docEmptyEx {} = [] := by
  refine ⟨rfl, by decide, by decide, rfl⟩

/-- C5 (amended): for every document with at least one non-empty paragraph
and no paragraph whose stripped, lowercased text equals the literature
heading, with require_literature_block set, the literature check returns
exactly the single LITERATURE_MISSING ERROR finding, the full report
contains exactly one LITERATURE_MISSING finding, and the literature-position
and literature-items checks are skipped (zero LITERATURE_NOT_AT_END and zero
LITERATURE_ITEMS_FORMAT findings). -/
theorem C5_literature_missing (doc : Document) (rules : ThesisStyleRules)
    (hreq : rules.require_literature_block = true)
    (hne : nonEmptyParagraphs doc ≠ [])
    (hno : ∀ p ∈ doc.paragraphs, isLitHeading p = false) :
    _check_literature doc rules
      = [{ code := "LITERATURE_MISSING"
         , severity := Severity.ERROR
         , message := "Отсутствует блок «Література» в конце документа." }]
    ∧ countCode (validate_thesis_docx doc (some rules)).issues "LITERATURE_MISSING" = 1
    ∧ countCode (validate_thesis_docx doc (some rules)).issues "LITERATURE_NOT_AT_END" = 0
    ∧ countCode (validate_thesis_docx doc (some rules)).issues "LITERATURE_ITEMS_FORMAT" = 0 := by
  have hidx : List.findIdx? isLitHeading (nonEmptyParagraphs doc) = none :=
    findIdx?_eq_none_of _ _ _ fun p hp => hno p (List.mem_filter.1 hp).1
  have hlit : _check_literature doc rules
      = [{ code := "LITERATURE_MISSING"
         , severity := Severity.ERROR
         , message := "Отсутствует блок «Література» в конце документа." }] := by
    simp only [_check_literature]
    rw [if_neg (by simpa using hne), hidx, hreq]
    simp
  have hv : (validate_thesis_docx doc (some rules)).issues
      = _check_page_setup doc rules ++ _check_header_structure doc rules
        ++ _check_body_paragraphs doc rules ++ _check_literature doc rules
        ++ _check_captions doc ++ _check_length_heuristic doc := rfl
  refine ⟨hlit, ?_, ?_, ?_⟩ <;>
  · rw [hv, countCode_append, countCode_append, countCode_append, countCode_append,
      countCode_append, hlit]
    have h1 := countCode_eq_zero (_check_page_setup doc rules)
    have h2 := countCode_eq_zero (_check_header_structure doc rules)
    have h3 := countCode_eq_zero (_check_body_paragraphs doc rules)
    have h5 := countCode_eq_zero (_check_captions doc)
    have h6 := countCode_eq_zero (_check_length_heuristic doc)
    rw [h1 _ (fun i hi => by
          rcases mem_check_page_setup_code hi with h' | h' | h' <;> simp [h']),
      h2 _ (fun i hi => by
          rcases mem_check_header_structure_code hi with
            h' | h' | h' | h' | h' | h' | h' | h' | h' | h' | h' | h' <;> simp [h']),
      h3 _ (fun i hi => by
          rcases mem_check_body_paragraphs_code hi with h' | h' | h' | h' | h' | h' <;>
            simp [h']),
      h5 _ (fun i hi => by simp [mem_check_captions_code hi]),
      h6 _ (fun i hi => by rcases mem_check_length_code hi with h' | h' <;> simp [h'])]
    simp [countCode]

/-- Witness for C5 (amended) at a concrete three-paragraph document with no
literature heading. -/
theorem C5_literature_missing_witness :
    _check_literature docNoLitEx {}
      = [{ code := "LITERATURE_MISSING"
         , severity := Severity.ERROR
         , message := "Отсутствует блок «Література» в конце документа." }] :=
  (C5_literature_missing docNoLitEx {} rfl (by decide) (by decide)).1

theorem hasCode_eq_false (l : List ValidationIssue) (c : String)
    (h : ∀ i ∈ l, i.code ≠ c) : hasCode l c = false := by
  simp only [hasCode, List.any_eq_false]
  intro i hi
  simpa using h i hi

theorem hasCode_of_mem {l : List ValidationIssue} {c : String} {i : ValidationIssue}
    (hi : i ∈ l) (hc : i.code = c) : hasCode l c = true := by
  simp only [hasCode, List.any_eq_true]
  exact ⟨i, hi, by simp [hc]⟩

theorem mem_bodyFontScan_sev {rules : ThesisStyleRules} {txt : String} {l : List Run}
    {i : ValidationIssue} (h : i ∈ bodyFontScan rules txt l) :
    i.severity = Severity.WARNING := by
  induction l with
  | nil => simp [bodyFontScan] at h
  | cons r rest ih =>
    simp only [bodyFontScan] at h
    split at h
    · exact ih h
    · split at h
      · simp_all
      · split at h
        · simp_all
        · exact ih h

theorem mem_bodyParagraphIssues_sev {rules : ThesisStyleRules} {p : Paragraph}
    {i : ValidationIssue} (h : i ∈ bodyParagraphIssues rules p) :
    i.severity = Severity.WARNING := by
  simp only [bodyParagraphIssues] at h
  split at h
  · simp_all
  · simp only [List.mem_append] at h
    rcases h with ((h | h) | h) | h
    · simp only [justifyIssues] at h
      split at h <;> simp_all
    · simp only [lineSpacingIssues] at h
      split at h
      · simp_all
      · split at h <;> simp_all
      · simp_all
    · simp only [indentIssues] at h
      split at h
      · simp_all
      · split at h <;> simp_all
    · exact mem_bodyFontScan_sev h

theorem indentIssues_hasCode (rules : ThesisStyleRules) (n : Int) :
    hasCode (indentIssues rules (some n)) "INDENT_MISMATCH"
      = decide (80 < (n - expectedIndentTwips rules).natAbs) := by
  simp only [indentIssues]
  split <;> simp_all [hasCode]

/-- C6 (amended): for a sampled non-empty body paragraph whose first-line
indent is present, the body check emits a WARNING INDENT_MISMATCH exactly
when the indent in twips differs from the expected indent (1.25 cm converted
to twips, 709 by default) by more than 80 twips — about 1.4 mm, not the
0.8 mm the claim states — and every finding of the body-paragraph loop is a
WARNING. -/
theorem C6_indent_tolerance (rules : ThesisStyleRules) (p : Paragraph) (n : Int)
    (ht : pyStrip p.text ≠ "") (hi : p.first_line_indent = some n) :
    (hasCode (bodyParagraphIssues rules p) "INDENT_MISMATCH" = true
      ↔ 80 < (n - expectedIndentTwips rules).natAbs)
    ∧ (∀ i ∈ bodyParagraphIssues rules p, i.severity = Severity.WARNING) := by
  constructor
  · have hJ : hasCode (justifyIssues rules p (pyStrip p.text)) "INDENT_MISMATCH" = false :=
      hasCode_eq_false _ _ fun i hi' => by
        simp only [justifyIssues] at hi'
        split at hi' <;> simp_all
    have hL : hasCode (lineSpacingIssues rules p.line_spacing) "INDENT_MISMATCH" = false :=
      hasCode_eq_false _ _ fun i hi' => by
        simp only [lineSpacingIssues] at hi'
        split at hi'
        · simp_all
        · split at hi' <;> simp_all
        · simp_all
    have hF : hasCode (bodyFontScan rules (pyStrip p.text) p.runs) "INDENT_MISMATCH" = false :=
      hasCode_eq_false _ _ fun i hi' => by
        rcases mem_bodyFontScan_code hi' with h' | h' <;> simp [h']
    have hbody : bodyParagraphIssues rules p
        = justifyIssues rules p (pyStrip p.text)
          ++ lineSpacingIssues rules p.line_spacing
          ++ indentIssues rules p.first_line_indent
          ++ bodyFontScan rules (pyStrip p.text) p.runs := by
      simp only [bodyParagraphIssues]
      rw [if_neg ht]
    rw [hbody, hasCode_append, hasCode_append, hasCode_append, hJ, hL, hF, hi,
      indentIssues_hasCode]
    simp
  · intro i hmem
    exact mem_bodyParagraphIssues_sev hmem

/-- C6 counterexample: the fourth non-empty paragraph of this document has a
first-line indent of 766 twips.  The deviation from the expected 709 twips
is 57 twips, which is more than 0.8 mm (57 twips times 2540 exceeds 8 times
14400, the 0.8 mm threshold expressed over a common denominator), yet the
body check emits no INDENT_MISMATCH finding, because the code's hard-coded
tolerance is 80 twips. -/
theorem C6_counterexample :
    hasCode (_check_body_paragraphs docIndent766Ex {}) "INDENT_MISMATCH" = false
    ∧ expectedIndentTwips ({} : ThesisStyleRules) = 709
    ∧ ((766 : Int) - 709).natAbs = 57
    ∧ 57 * 2540 > 8 * 14400 :=
  ⟨by decide, by decide, by decide, by decide⟩

/-- Witness for C6 (amended) at a concrete paragraph with an 850-twip
indent. -/
theorem C6_indent_tolerance_witness :
    hasCode (bodyParagraphIssues {} pIndentBigEx) "INDENT_MISMATCH" = true :=
  ((C6_indent_tolerance {} pIndentBigEx 850 (by decide) rfl).1).mpr (by decide)

theorem countCode_le_length (l : List ValidationIssue) (c : String) :
    countCode l c ≤ l.length := by
  simpa [countCode] using List.length_filter_le (fun i => i.code == c) l

theorem mem_captionRunScan_sev {txt : String} {l : List Run} {i : ValidationIssue}
    (h : i ∈ captionRunScan txt l) : i.severity = Severity.WARNING := by
  induction l with
  | nil => simp [captionRunScan] at h
  | cons r rest ih =>
    simp only [captionRunScan] at h
    split at h
    · exact ih h
    · split at h
      · simp_all
      · exact ih h

theorem captionRunScan_spec (txt : String) (l : List Run) :
    (captionRunScan txt l).length ≤ 1
    ∧ (hasCode (captionRunScan txt l) "CAPTION_SIZE_MISMATCH" = true
        ↔ ∃ r ∈ l, pyStrip r.text ≠ "" ∧ runCaptionSizeBad r = true) := by
  induction l with
  | nil =>
    refine ⟨by simp [captionRunScan], ?_⟩
    simp [captionRunScan, hasCode]
  | cons r rest ih =>
    simp only [captionRunScan]
    split
    · rename_i hb
      refine ⟨ih.1, ?_⟩
      rw [ih.2]
      constructor
      · rintro ⟨s, hs, h1, h2⟩
        exact ⟨s, by simp [hs], h1, h2⟩
      · rintro ⟨s, hs, h1, h2⟩
        rcases List.mem_cons.1 hs with rfl | hs'
        · rw [beq_iff_eq] at hb
          exact absurd hb h1
        · exact ⟨s, hs', h1, h2⟩
    · split
      · rename_i hb hbad
        refine ⟨by simp, ?_⟩
        constructor
        · intro _
          refine ⟨r, by simp, ?_, hbad⟩
          simpa [beq_iff_eq] using hb
        · intro _
          simp [hasCode]
      · rename_i hb hbad
        refine ⟨ih.1, ?_⟩
        rw [ih.2]
        constructor
        · rintro ⟨s, hs, h1, h2⟩
          exact ⟨s, by simp [hs], h1, h2⟩
        · rintro ⟨s, hs, h1, h2⟩
          rcases List.mem_cons.1 hs with rfl | hs'
          · exact absurd h2 (by simp_all)
          · exact ⟨s, hs', h1, h2⟩

/-- C7 (amended): for every paragraph whose stripped text matches the
caption pattern — the marker words are the Cyrillic Рис. and Таблиця, not
the Latin Fig. the claim instantiates — the captions check emits at most one
CAPTION_SIZE_MISMATCH finding for that caption, it emits one exactly when
some non-blank run has a truthy font size off 12 pt by more than 0.5 pt, it
emits none when every run is at the configured 12 pt, and every emitted
finding is a WARNING. -/
theorem C7_caption_size (p : Paragraph)
    (hc : isCaptionText (pyStrip p.text) = true) :
    countCode (paragraphCaptionIssues p) "CAPTION_SIZE_MISMATCH" ≤ 1
    ∧ (hasCode (paragraphCaptionIssues p) "CAPTION_SIZE_MISMATCH" = true
        ↔ ∃ r ∈ p.runs, pyStrip r.text ≠ "" ∧ runCaptionSizeBad r = true)
    ∧ ((∀ r ∈ p.runs, r.font_size = some CAPTION_SIZE_PT) → paragraphCaptionIssues p = [])
    ∧ (∀ i ∈ paragraphCaptionIssues p, i.severity = Severity.WARNING) := by
  have htxt : ¬ (pyStrip p.text == "") = true := by
    intro hb
    rw [beq_iff_eq] at hb
    rw [hb] at hc
    exact absurd hc (by decide)
  have hpc : paragraphCaptionIssues p = captionRunScan (pyStrip p.text) p.runs := by
    simp only [paragraphCaptionIssues]
    rw [if_neg htxt, if_pos hc]
  refine ⟨?_, ?_, ?_, ?_⟩
  · rw [hpc]
    exact le_trans (countCode_le_length _ _) (captionRunScan_spec _ _).1
  · rw [hpc]
    exact (captionRunScan_spec _ _).2
  · intro hall
    rw [hpc]
    by_contra hne
    obtain ⟨i, hi⟩ := List.exists_mem_of_ne_nil _ hne
    have hmem : hasCode (captionRunScan (pyStrip p.text) p.runs) "CAPTION_SIZE_MISMATCH" = true :=
      hasCode_of_mem hi (mem_captionRunScan_code hi)
    rw [(captionRunScan_spec _ _).2] at hmem
    obtain ⟨r, hr, -, hbad⟩ := hmem
    have h12 := hall r hr
    simp [runCaptionSizeBad, h12, CAPTION_SIZE_PT] at hbad
    norm_num at hbad
  · intro i hi
    rw [hpc] at hi
    exact mem_captionRunScan_sev hi

/-- C7 counterexample: a paragraph starting with the Latin marker Fig. whose
single run is 10 pt (well outside 12 plus or minus 0.5) produces no
CAPTION_SIZE_MISMATCH finding at all, because the caption pattern of the
code only matches the Cyrillic markers Рис. and Таблиця. -/
theorem C7_counterexample :
    _check_captions docFigEx = []
    ∧ isCaptionText (pyStrip "Fig. 1 example") = false
    ∧ docFigEx.paragraphs.all
        (fun p => p.runs.all (fun r => r.font_size == some 10)) = true :=
  ⟨by decide, by decide, by decide⟩

/-- Witness for C7 (amended) at a concrete Cyrillic caption with a 10 pt
run. -/
theorem C7_caption_size_witness :
    hasCode (paragraphCaptionIssues pRysEx) "CAPTION_SIZE_MISMATCH" = true :=
  ((C7_caption_size pRysEx (by decide)).2.1).mpr
    ⟨{ text := "Рис. 1 пример", font_size := some 10 }, by decide, by decide, by decide⟩

theorem hasCode_if_bool (b : Bool) (iss : ValidationIssue) (cd : String) :
    hasCode (if b then [iss] else []) cd = (b && (iss.code == cd)) := by
  cases b <;> simp [hasCode]

theorem runFontNameMismatch_iff (rules : ThesisStyleRules) (r : Run) :
    runFontNameMismatch rules r = true
      ↔ ∃ nm, r.font_name = some nm ∧ nm ≠ rules.font_name := by
  cases hr : r.font_name <;> simp [runFontNameMismatch, hr]

theorem runFontSizeMismatch_iff (rules : ThesisStyleRules) (r : Run) :
    runFontSizeMismatch rules r = true
      ↔ ∃ sz, r.font_size = some sz ∧ FONT_SIZE_TOL < |sz - rules.font_size_pt| := by
  cases hr : r.font_size <;> simp [runFontSizeMismatch, hr]

theorem runFontUnknown_iff (r : Run) :
    runFontUnknown r = true ↔ r.font_name = none ∨ r.font_size = none := by
  simp [runFontUnknown, Option.isNone_iff_eq_none]

/-- C8 (amended): in the run-level font check, font name and font size are
three-state: a mismatch ERROR requires an attribute that is present and
off, an absent name or size never produces the mismatch ERRORs and instead
surfaces as the FONT_UNKNOWN WARNING when no name/size defect was found.
Bold and italic, however, are two-state: a run whose bold flag is unset
(bold none) while bold is required DOES yield the HEADER_NOT_BOLD ERROR,
and an unset italic while italic is required DOES yield AUTHORS_NOT_ITALIC,
because the code treats anything other than an explicit true as a
mismatch. -/
theorem C8_font_three_state (p : Paragraph) (rules : ThesisStyleRules)
    (mb mi : Bool) (w : String) (ht : pyStrip p.text ≠ "") :
    (hasCode (_check_paragraph_font p rules mb mi w) "FONT_NAME_MISMATCH" = true
      ↔ ∃ r ∈ p.runs.filter (fun r => pyStrip r.text != ""),
          ∃ nm, r.font_name = some nm ∧ nm ≠ rules.font_name)
    ∧ (hasCode (_check_paragraph_font p rules mb mi w) "FONT_SIZE_MISMATCH" = true
      ↔ ∃ r ∈ p.runs.filter (fun r => pyStrip r.text != ""),
          ∃ sz, r.font_size = some sz ∧ FONT_SIZE_TOL < |sz - rules.font_size_pt|)
    ∧ (hasCode (_check_paragraph_font p rules mb mi w) "HEADER_NOT_BOLD" = true
      ↔ mb = true ∧ ∃ r ∈ p.runs.filter (fun r => pyStrip r.text != ""), r.bold ≠ some true)
    ∧ (hasCode (_check_paragraph_font p rules mb mi w) "AUTHORS_NOT_ITALIC" = true
      ↔ mi = true ∧ ∃ r ∈ p.runs.filter (fun r => pyStrip r.text != ""), r.italic ≠ some true)
    ∧ (hasCode (_check_paragraph_font p rules mb mi w) "FONT_UNKNOWN" = true
      ↔ ((p.runs.filter (fun r => pyStrip r.text != "") = []
           ∨ ∃ r ∈ p.runs.filter (fun r => pyStrip r.text != ""),
               r.font_name = none ∨ r.font_size = none)
         ∧ ¬(∃ r ∈ p.runs.filter (fun r => pyStrip r.text != ""),
               ∃ nm, r.font_name = some nm ∧ nm ≠ rules.font_name)
         ∧ ¬(∃ r ∈ p.runs.filter (fun r => pyStrip r.text != ""),
               ∃ sz, r.font_size = some sz ∧ FONT_SIZE_TOL < |sz - rules.font_size_pt|)))
    ∧ (∀ i ∈ _check_paragraph_font p rules mb mi w,
        (i.code = "FONT_UNKNOWN" → i.severity = Severity.WARNING)
        ∧ ((i.code = "HEADER_NOT_BOLD" ∨ i.code = "AUTHORS_NOT_ITALIC"
            ∨ i.code = "FONT_NAME_MISMATCH" ∨ i.code = "FONT_SIZE_MISMATCH")
           → i.severity = Severity.ERROR)) := by
  refine ⟨?_, ?_, ?_, ?_, ?_, ?_⟩
  · simp only [_check_paragraph_font]
    rw [if_neg ht, hasCode_append, hasCode_append, hasCode_append, hasCode_append,
      hasCode_if_bool, hasCode_if_bool, hasCode_if_bool, hasCode_if_bool, hasCode_if_bool]
    simp [List.any_eq_true, runFontNameMismatch_iff]
    exact ⟨fun ⟨r, h1, h2, h3⟩ => ⟨r, ⟨h1, h2⟩, h3⟩, fun ⟨r, ⟨h1, h2⟩, h3⟩ => ⟨r, h1, h2, h3⟩⟩
  · simp only [_check_paragraph_font]
    rw [if_neg ht, hasCode_append, hasCode_append, hasCode_append, hasCode_append,
      hasCode_if_bool, hasCode_if_bool, hasCode_if_bool, hasCode_if_bool, hasCode_if_bool]
    simp [List.any_eq_true, runFontSizeMismatch_iff]
    exact ⟨fun ⟨r, h1, h2, h3⟩ => ⟨r, ⟨h1, h2⟩, h3⟩, fun ⟨r, ⟨h1, h2⟩, h3⟩ => ⟨r, h1, h2, h3⟩⟩
  · simp only [_check_paragraph_font]
    rw [if_neg ht, hasCode_append, hasCode_append, hasCode_append, hasCode_append,
      hasCode_if_bool, hasCode_if_bool, hasCode_if_bool, hasCode_if_bool, hasCode_if_bool]
    simp [List.any_eq_true, bne_iff_ne]
    intro hmb
    constructor
    · rintro ⟨r, h1, h2, -, h3⟩
      exact ⟨r, ⟨h1, h2⟩, h3⟩
    · rintro ⟨r, ⟨h1, h2⟩, h3⟩
      exact ⟨r, h1, h2, hmb, h3⟩
  · simp only [_check_paragraph_font]
    rw [if_neg ht, hasCode_append, hasCode_append, hasCode_append, hasCode_append,
      hasCode_if_bool, hasCode_if_bool, hasCode_if_bool, hasCode_if_bool, hasCode_if_bool]
    simp [List.any_eq_true, bne_iff_ne]
    intro hmi
    constructor
    · rintro ⟨r, h1, h2, -, h3⟩
      exact ⟨r, ⟨h1, h2⟩, h3⟩
    · rintro ⟨r, ⟨h1, h2⟩, h3⟩
      exact ⟨r, h1, h2, hmi, h3⟩
  · simp only [_check_paragraph_font]
    rw [if_neg ht, hasCode_append, hasCode_append, hasCode_append, hasCode_append,
      hasCode_if_bool, hasCode_if_bool, hasCode_if_bool, hasCode_if_bool, hasCode_if_bool]
    simp [List.any_eq_true, runFontNameMismatch_iff, runFontSizeMismatch_iff,
      runFontUnknown_iff, List.isEmpty_iff]
    intro h1 h2
    constructor
    · rintro (h | ⟨r, hr, ha, hcd⟩)
      · exact Or.inl h
      · exact Or.inr ⟨r, ⟨hr, ha⟩, hcd⟩
    · rintro (h | ⟨r, ⟨hr, ha⟩, hcd⟩)
      · exact Or.inl h
      · exact Or.inr ⟨r, hr, ha, hcd⟩
  · intro i hi
    simp only [_check_paragraph_font] at hi
    split at hi
    · simp_all
    · simp only [List.mem_append] at hi
      rcases hi with (((hi | hi) | hi) | hi) | hi <;> (split at hi <;> simp_all)

/-- C8 counterexample: a paragraph whose single run has the required font
name and size but an unset bold and italic flag, checked with bold and
italic required, yields the HEADER_NOT_BOLD and AUTHORS_NOT_ITALIC ERROR
findings — the unset flags are not surfaced as a FONT_UNKNOWN advisory, so
the claim's statement about bold and italic is false on the code. -/
theorem C8_counterexample :
    _check_paragraph_font pBoldNoneEx {} true true "authors"
      = [{ code := "HEADER_NOT_BOLD"
         , severity := Severity.ERROR
         , message := "Блок authors должен быть полужирным."
         , details := some [("where", DVal.str "authors"),
             ("text", DVal.str "Петренко І. П.")] },
         { code := "AUTHORS_NOT_ITALIC"
         , severity := Severity.ERROR
         , message := "Список авторов должен быть курсивом."
         , details := some [("where", DVal.str "authors"),
             ("text", DVal.str "Петренко І. П.")] }]
    ∧ (pBoldNoneEx.runs.all (fun r => r.bold == none && r.italic == none)) = true :=
  ⟨by decide, by decide⟩

/-- Witness for C8 (amended) at a concrete paragraph with an unset bold
flag. -/
theorem C8_font_three_state_witness :
    hasCode (_check_paragraph_font pBoldNoneEx {} true true "authors")
      "HEADER_NOT_BOLD" = true :=
  ((C8_font_three_state pBoldNoneEx {} true true "authors" (by decide)).2.2.1).mpr
    ⟨rfl, { text := "Петренко І. П.", font_name := some "Times New Roman"
          , font_size := some 14, bold := none, italic := none },
      by decide, by decide⟩

/-- C9: the length heuristic joins all paragraph texts, strips, collapses
whitespace runs to single spaces and counts characters; a count below the
minimum threshold (800) yields the LENGTH_TOO_SHORT WARNING, a count above
the maximum threshold (6500) yields the LENGTH_TOO_LONG WARNING, and counts
in between (such as 3000) yield neither — in particular 500 is below the
minimum and 7000 above the maximum. -/
theorem C9_length_thresholds (doc : Document) :
    (hasCode (_check_length_heuristic doc) "LENGTH_TOO_SHORT" = true
      ↔ _length_chars doc < MIN_TEXT_CHARS)
    ∧ (hasCode (_check_length_heuristic doc) "LENGTH_TOO_LONG" = true
      ↔ MAX_TEXT_CHARS < _length_chars doc)
    ∧ (∀ i ∈ _check_length_heuristic doc, i.severity = Severity.WARNING)
    ∧ MIN_TEXT_CHARS = 800 ∧ MAX_TEXT_CHARS = 6500 := by
  refine ⟨?_, ?_, ?_, rfl, rfl⟩
  · simp only [_check_length_heuristic]
    rw [hasCode_append]
    split_ifs with h1 h2 <;> simp_all [hasCode]
  · simp only [_check_length_heuristic]
    rw [hasCode_append]
    split_ifs with h1 h2 <;> simp_all [hasCode]
  · intro i hi
    simp only [_check_length_heuristic, List.mem_append] at hi
    rcases hi with hi | hi <;> (split at hi <;> simp_all)

set_option maxRecDepth 20000 in
/-- Witness for C9 at a concrete 500-character document. -/
theorem C9_length_thresholds_witness :
    hasCode (_check_length_heuristic docShort500Ex) "LENGTH_TOO_SHORT" = true :=
  ((C9_length_thresholds docShort500Ex).1).mpr (by decide)
